import Mathlib

/-!
Verification of `SaundApp/ReactAudioRecorder`, file `src/hooks/useAudioRecorder.ts`.

The hook holds four pieces of React state:

  * `isRecording : boolean`
  * `recordingTime : number`          (seconds, incremented by a 1s interval)
  * `timerInterval : NodeJS.Timeout?` (the interval handle, `undefined` when idle)
  * `recordingBlob : Blob?`           (the finished audio artifact)

and exposes `startRecording` / `stopRecording`.  `startRecording` delegates to
the platform capture API `navigator.device.capture.captureAudio(onSuccess,
onError)`; the success callback schedules a `FileReader` read of the returned
file (via `fetch(path)` / `response.blob()` / `readAsArrayBuffer`) whose
`onloadend` wraps the bytes in a `Blob` of MIME type `"audio/wav"` and stores
it in `recordingBlob`.

We embed this as an explicit state machine.  Asynchronous completions are
events: an interval firing, a capture success, the chained file-read
completion, and a capture failure.  The in-flight capture calls and scheduled
file reads are tracked in the state (`pendingCaptures`, `pendingReads`) so
that enabledness of those events is faithful: a capture callback can only
fire for a capture that was started, the file-read completion only for a
read that the success callback scheduled.  The bytes delivered through
`fetch`/`FileReader` are modelled as the file's byte list.

Two timer notions are kept apart, because the source keeps them apart:

  * `timerInterval` — the hook's React state cell holding the handle;
  * `liveIntervals` — the intervals actually registered with the runtime
    (`setInterval` called, `clearInterval` not yet called).  An interval
    fires as long as it is live, whatever the state cell says.

They come apart through a stale closure in the source.  `_stopTimer`
(`useAudioRecorder.ts:37-40`) runs `timerInterval != null &&
clearInterval(timerInterval)` on the `timerInterval` *of the render that
created the closure*.  The success callback handed to `captureAudio` is
created while `startRecording` runs, and `startRecording`'s guard
(`if (timerInterval != null) return`) guarantees that render's
`timerInterval` was `undefined`; both `_stopTimer` and `startRecording` are
re-memoized exactly when `timerInterval` changes, so the `_stopTimer` the
success callback closes over captured `timerInterval = undefined`.  When the
provider succeeds, that stale `_stopTimer` therefore skips `clearInterval`
and only runs `setTimerInterval(undefined)`: the interval stays live (it
leaks, since its handle is gone) and keeps incrementing `recordingTime`.
`stopRecording`, in contrast, lists `_stopTimer` among its `useCallback`
dependencies, so the user-facing stop always uses the current render's
`_stopTimer` and really clears the tracked interval.  We model `_stopTimer`
as parameterized by the closed-over handle value: `stopRecording` passes the
current one, the success callback passes `none`.
-/

namespace ReactAudioRecorder

/-- A JS `Blob` as this code uses it: the byte content handed to the
constructor and the MIME `type` option. -/
structure Blob where
  bytes : List Nat
  type : String
deriving Repr, DecidableEq

/-- The error object the capture provider passes to `onError`
(carries a human-readable `message`). -/
structure CaptureError where
  message : String
deriving Repr, DecidableEq

/-- The hook's React state plus the runtime's interval registry.
`timerInterval` holds the hook's handle state cell (`none` = `undefined`);
interval handles are modelled as naturals drawn from the counter
`nextTimerId`.  `liveIntervals` lists the intervals registered with the
runtime and not yet cleared — these fire regardless of the state cell.
`pendingCaptures` counts `captureAudio` calls whose callback has not fired
yet; `pendingReads` lists the byte contents of files whose `FileReader` read
was scheduled by a success callback but whose `onloadend` has not fired
yet. -/
structure RecorderState where
  isRecording : Bool
  recordingTime : Nat
  timerInterval : Option Nat
  recordingBlob : Option Blob
  pendingCaptures : Nat
  pendingReads : List (List Nat)
  liveIntervals : List Nat
  nextTimerId : Nat
deriving Repr, DecidableEq

/-- Hook initialization: `useState(false)`, `useState(0)`,
`useState<NodeJS.Timeout>()`, `useState<Blob>()`; no interval registered. -/
def initState : RecorderState :=
  { isRecording := false
    recordingTime := 0
    timerInterval := none
    recordingBlob := none
    pendingCaptures := 0
    pendingReads := []
    liveIntervals := []
    nextTimerId := 0 }

/-- `_startTimer`: `setInterval(..., 1000)` registers a fresh interval with
the runtime and the handle is stored in `timerInterval`. -/
def _startTimer (s : RecorderState) : RecorderState :=
  { s with timerInterval := some s.nextTimerId
           liveIntervals := s.liveIntervals ++ [s.nextTimerId]
           nextTimerId := s.nextTimerId + 1 }

/-- `_stopTimer`: `timerInterval != null && clearInterval(timerInterval);
setTimerInterval(undefined)`.  The `timerInterval` it reads is the one of
the render that created the closure, so it is a parameter here: the
user-facing `stopRecording` passes the current handle, while the capture
success callback's stale closure passes `none` (the guard in
`startRecording` had just seen `undefined`).  Only a non-null captured
handle clears the live interval. -/
def _stopTimer (captured : Option Nat) (s : RecorderState) : RecorderState :=
  { s with
      liveIntervals :=
        match captured with
        | some id => s.liveIntervals.erase id
        | none => s.liveIntervals
      timerInterval := none }

/-- The `setInterval` callback: `setRecordingTime((time) => time + 1)`. -/
def timerTick (s : RecorderState) : RecorderState :=
  { s with recordingTime := s.recordingTime + 1 }

/-- `startRecording`: `if (timerInterval != null) return;` then
`navigator.device.capture.captureAudio(onSuccess, onError)` (one more capture
in flight), `setIsRecording(true)`, `_startTimer()`. -/
def startRecording (s : RecorderState) : RecorderState :=
  if s.timerInterval.isSome then s
  else
    _startTimer
      { s with pendingCaptures := s.pendingCaptures + 1, isRecording := true }

/-- `stopRecording`: `_stopTimer(); setRecordingTime(0); setIsRecording(false)`.
`stopRecording`'s `useCallback` lists `_stopTimer` as a dependency, so it
always uses the current render's `_stopTimer`, whose closed-over handle is
the current `timerInterval`: the tracked interval is really cleared. -/
def stopRecording (s : RecorderState) : RecorderState :=
  { _stopTimer s.timerInterval s with recordingTime := 0, isRecording := false }

/-- The capture success callback `(files) => ...`: it takes `files[0]`,
starts `fetch(file.fullPath)` chained into a `FileReader` read of the file's
bytes (scheduling the read, whose `onloadend` fires later), then
`setIsRecording(false); _stopTimer(); setRecordingTime(0)`.  `fileBytes` is
the byte content of the provider's returned file.  The `_stopTimer` invoked
here is the stale one whose closed-over `timerInterval` is `undefined` (the
guard in the `startRecording` that registered this callback had just seen
`undefined`), so `clearInterval` is skipped: the live interval leaks and
keeps firing. -/
def captureSuccess (fileBytes : List Nat) (s : RecorderState) : RecorderState :=
  { _stopTimer none s with
      isRecording := false
      recordingTime := 0
      pendingCaptures := s.pendingCaptures - 1
      pendingReads := s.pendingReads ++ [fileBytes] }

/-- `reader.onloadend`: wraps `reader.result` in
`new Blob([new Uint8Array(...)], \x7b type: "audio/wav" \x7d)` and stores it via
`setRecordingBlob(blob)`.  The completed read is removed from the pending
reads. -/
def readerOnloadend (fileBytes : List Nat) (s : RecorderState) : RecorderState :=
  { s with
      recordingBlob := some { bytes := fileBytes, type := "audio/wav" }
      pendingReads := s.pendingReads.erase fileBytes }

/-- The capture failure callback `(err) => ...`: `console.log(err.message)`
then `onNotAllowedOrFound?.(err)`.  `supplied` says whether the caller passed
the optional `onNotAllowedOrFound` handler; the second component of the
result is the list of invocations of that handler made by this callback. -/
def captureFailure (supplied : Bool) (err : CaptureError) (s : RecorderState) :
    RecorderState × List CaptureError :=
  ({ s with pendingCaptures := s.pendingCaptures - 1 },
   if supplied then [err] else [])

/-- The events the event loop can deliver to the hook.  A `tick` names the
interval that fires: leaked intervals fire too, so firings are keyed by the
interval, not by the hook's handle cell. -/
inductive Event where
  | start
  | stop
  | tick (id : Nat)
  | success (fileBytes : List Nat)
  | loadend (fileBytes : List Nat)
  | failure (err : CaptureError)
deriving Repr, DecidableEq

/-- One event-loop step.  Asynchronous events are guarded by their
enabledness: an interval callback fires only while that interval is live
(registered with `setInterval` and not cleared — whether or not the hook
still holds its handle), capture callbacks only for an in-flight capture,
`onloadend` only for a scheduled read.  A disabled event is a stutter. -/
def stepEvent (e : Event) (s : RecorderState) : RecorderState :=
  match e with
  | .start => startRecording s
  | .stop => stopRecording s
  | .tick id => if id ∈ s.liveIntervals then timerTick s else s
  | .success b => if 0 < s.pendingCaptures then captureSuccess b s else s
  | .loadend b => if b ∈ s.pendingReads then readerOnloadend b s else s
  | .failure err =>
      if 0 < s.pendingCaptures then (captureFailure false err s).1 else s

/-- Run a list of events from a state. -/
def run (es : List Event) (s : RecorderState) : RecorderState :=
  es.foldl (fun s e => stepEvent e s) s

/-- A state the hook can actually be in: produced by some event sequence
from the initial state. -/
def Reachable (s : RecorderState) : Prop :=
  ∃ es : List Event, run es initState = s

/-- Whether an event is the completion of a file read (`reader.onloadend`). -/
def Event.isLoadend : Event → Bool
  | .loadend _ => true
  | _ => false

/-- An event sequence exercising a capture that completes and is followed by
a second `startRecording`: start, provider success for a file with byte
content `[7]`, the chained file read completes, start again. -/
def restartTrace : List Event :=
  [Event.start, Event.success [7], Event.loadend [7], Event.start]

/-- Claim C1: for every invocation of the capture success callback for a file
with byte content `fileBytes`, the blob produced by the chained file read is
exactly the `audio/wav` blob of those bytes, and the success callback itself
resets `isRecording` to `false` and the elapsed counter to `0`. -/
theorem success_blob_wav_and_reset (s : RecorderState) (fileBytes : List Nat) :
    (readerOnloadend fileBytes (captureSuccess fileBytes s)).recordingBlob =
      some { bytes := fileBytes, type := "audio/wav" } ∧
    (captureSuccess fileBytes s).isRecording = false ∧
    (captureSuccess fileBytes s).recordingTime = 0 :=
  ⟨rfl, rfl, rfl⟩

/-- Claim C2 fails on the code through the leaked interval: `startRecording`
never resets the elapsed counter, and a provider success leaves its interval
live (the stale `_stopTimer` skipped `clearInterval`), so the counter can
grow while the hook is Idle.  After start, provider success, and one firing
of the leaked interval, the hook is Idle (`isRecording = false`, handle
`undefined`) with counter `1`; calling `startRecording` then transitions
into Recording with the counter still `1`, not `0`. -/
theorem start_after_leak_nonzero_time :
    Reachable (run [Event.start, Event.success [7], Event.tick 0] initState) ∧
    (run [Event.start, Event.success [7], Event.tick 0] initState).timerInterval
      = none ∧
    (run [Event.start, Event.success [7], Event.tick 0] initState).isRecording
      = false ∧
    (startRecording
        (run [Event.start, Event.success [7], Event.tick 0] initState)).isRecording
      = true ∧
    (startRecording
        (run [Event.start, Event.success [7], Event.tick 0] initState)).recordingTime
      = 1 :=
  ⟨⟨[Event.start, Event.success [7], Event.tick 0], rfl⟩,
   by decide, by decide, by decide, by decide⟩

/-- Claim C3 fails on the code: after start and provider success, the
success callback's stale `_stopTimer` (closed over `timerInterval =
undefined`) skips `clearInterval`, so the first interval stays live while
its handle is dropped; a second `startRecording` then passes the guard and
registers a second interval.  The state reached by start, success, start has
two live intervals — the leaked `0` and the tracked `1`. -/
theorem leaked_and_new_interval_live :
    Reachable (run [Event.start, Event.success [7], Event.start] initState) ∧
    (run [Event.start, Event.success [7], Event.start] initState).liveIntervals
      = [0, 1] ∧
    (run [Event.start, Event.success [7], Event.start] initState).timerInterval
      = some 1 :=
  ⟨⟨[Event.start, Event.success [7], Event.start], rfl⟩, by decide, by decide⟩

/-- Claim C4: for every state and every prior elapsed value, `stopRecording`
clears the timer handle, resets the elapsed counter to `0`, and sets
`isRecording` to `false`. -/
theorem stop_resets (s : RecorderState) :
    (stopRecording s).timerInterval = none ∧
    (stopRecording s).recordingTime = 0 ∧
    (stopRecording s).isRecording = false :=
  ⟨rfl, rfl, rfl⟩

/-- Claim C5 fails on the code because of the leaked interval.  After start
and provider success, recording has ended (`isRecording = false`) yet the
leaked interval's next firing still increments the counter to `1`; and in
the restarted session reached by start, success, start, both live intervals
fire each simulated second, so one second of Recording raises the counter
from `0` to `2` — not by exactly `1` per second until recording ends. -/
theorem zombie_ticks_after_end_and_double_rate :
    (run [Event.start, Event.success [7]] initState).isRecording = false ∧
    (run [Event.start, Event.success [7], Event.tick 0] initState).recordingTime
      = 1 ∧
    (run [Event.start, Event.success [7], Event.start] initState).isRecording
      = true ∧
    (run [Event.start, Event.success [7], Event.start] initState).recordingTime
      = 0 ∧
    (run [Event.start, Event.success [7], Event.start, Event.tick 0, Event.tick 1]
        initState).recordingTime = 2 := by
  refine ⟨by decide, by decide, by decide, by decide, by decide⟩

/-- Claim C6 fails on the code: `startRecording` never clears
`recordingBlob`, so after a completed capture a restarted session is
Recording while the artifact from the previous capture is still defined.
The trace start / success / file-read completion / start reaches such a
state. -/
theorem recording_with_blob_reachable :
    Reachable (run restartTrace initState) ∧
    (run restartTrace initState).isRecording = true ∧
    (run restartTrace initState).recordingBlob =
      some { bytes := [7], type := "audio/wav" } :=
  ⟨⟨restartTrace, rfl⟩, by decide, by decide⟩

/-- Claim C6 (amended): `recordingBlob` may become defined only as a side
effect of the capture success path — the file-read completion chained from
the success callback is the only event that modifies it; every other event
leaves it unchanged.  (It is not an invariant that the blob is undefined
while Recording: a restarted session keeps the previous artifact.) -/
theorem blob_set_only_by_success_read (s : RecorderState) (e : Event)
    (h : e.isLoadend = false) :
    (stepEvent e s).recordingBlob = s.recordingBlob := by
  cases e with
  | start =>
      by_cases hT : s.timerInterval.isSome <;>
        simp [stepEvent, startRecording, _startTimer, hT]
  | stop => rfl
  | tick id =>
      by_cases hT : id ∈ s.liveIntervals <;> simp [stepEvent, timerTick, hT]
  | success b =>
      by_cases hP : 0 < s.pendingCaptures <;>
        simp [stepEvent, captureSuccess, _stopTimer, hP]
  | loadend b => simp [Event.isLoadend] at h
  | failure err =>
      by_cases hP : 0 < s.pendingCaptures <;>
        simp [stepEvent, captureFailure, hP]

/-- Witness for the amended C6 on a `stop` event. -/
theorem blob_set_only_by_success_read_witness :
    (Event.stop.isLoadend = false) ∧
    (stepEvent Event.stop initState).recordingBlob = initState.recordingBlob :=
  ⟨rfl, blob_set_only_by_success_read initState Event.stop rfl⟩

/-- Claim C7: when the optional handler was supplied, a capture failure
invokes it exactly once, with the provider's error object, and leaves the
session state (`isRecording`, the elapsed counter, the timer handle, and the
artifact) unchanged. -/
theorem failure_invokes_handler_once (s : RecorderState) (err : CaptureError) :
    (captureFailure true err s).2 = [err] ∧
    (captureFailure true err s).1.isRecording = s.isRecording ∧
    (captureFailure true err s).1.recordingTime = s.recordingTime ∧
    (captureFailure true err s).1.timerInterval = s.timerInterval ∧
    (captureFailure true err s).1.recordingBlob = s.recordingBlob :=
  ⟨rfl, rfl, rfl, rfl, rfl⟩

/-- Claim C8: `stopRecording` cancels only the local timer, never the
in-flight capture: it leaves the count of in-flight captures unchanged, and
if the provider then completes (success followed by the chained file read),
the callbacks still run and leave the state with the fresh artifact,
`isRecording = false` and elapsed counter `0`. -/
theorem stop_then_success_overwrites (s : RecorderState) (b : List Nat)
    (h : 0 < s.pendingCaptures) :
    (stopRecording s).pendingCaptures = s.pendingCaptures ∧
    (stepEvent (Event.loadend b)
        (stepEvent (Event.success b) (stopRecording s))).recordingBlob =
      some { bytes := b, type := "audio/wav" } ∧
    (stepEvent (Event.loadend b)
        (stepEvent (Event.success b) (stopRecording s))).isRecording = false ∧
    (stepEvent (Event.loadend b)
        (stepEvent (Event.success b) (stopRecording s))).recordingTime = 0 := by
  refine ⟨rfl, ?_, ?_, ?_⟩ <;>
    simp [stepEvent, h, readerOnloadend, captureSuccess, _stopTimer,
      stopRecording]

/-- Witness for C8 right after a `startRecording` (one capture in flight). -/
theorem stop_then_success_overwrites_witness :
    0 < (startRecording initState).pendingCaptures ∧
    ((stopRecording (startRecording initState)).pendingCaptures =
        (startRecording initState).pendingCaptures ∧
      (stepEvent (Event.loadend [3])
          (stepEvent (Event.success [3])
            (stopRecording (startRecording initState)))).recordingBlob =
        some { bytes := [3], type := "audio/wav" } ∧
      (stepEvent (Event.loadend [3])
          (stepEvent (Event.success [3])
            (stopRecording (startRecording initState)))).isRecording = false ∧
      (stepEvent (Event.loadend [3])
          (stepEvent (Event.success [3])
            (stopRecording (startRecording initState)))).recordingTime = 0) :=
  ⟨by decide,
   stop_then_success_overwrites (startRecording initState) [3] (by decide)⟩

/-- Claim C9 (frame property of `stopRecording`): the artifact is left
exactly as it was, as are the in-flight captures and scheduled reads and the
timer-id counter; only the timer handle, the elapsed counter and
`isRecording` are modified. -/
theorem stop_frame (s : RecorderState) :
    (stopRecording s).recordingBlob = s.recordingBlob ∧
    (stopRecording s).pendingCaptures = s.pendingCaptures ∧
    (stopRecording s).pendingReads = s.pendingReads ∧
    (stopRecording s).nextTimerId = s.nextTimerId :=
  ⟨rfl, rfl, rfl, rfl⟩

/-- Claim C10: when the optional `onNotAllowedOrFound` handler is omitted,
a capture failure makes no handler invocation (the optional call `?.` is a
no-op) and leaves the session state unchanged; the callback is a total
function, so nothing is thrown across the public contract. -/
theorem failure_without_handler_noop (s : RecorderState) (err : CaptureError) :
    (captureFailure false err s).2 = [] ∧
    (captureFailure false err s).1.isRecording = s.isRecording ∧
    (captureFailure false err s).1.recordingTime = s.recordingTime ∧
    (captureFailure false err s).1.timerInterval = s.timerInterval ∧
    (captureFailure false err s).1.recordingBlob = s.recordingBlob :=
  ⟨rfl, rfl, rfl, rfl, rfl⟩

end ReactAudioRecorder
